import Mathlib

/-!
Shallow embedding of `fstest.go` (package fstest): an in-memory virtual
filesystem (`MapFS`, wrapping the standard library `testing/fstest.MapFS`)
and a deep filesystem-equality comparator (`EqualFS` / `EqualFSBuffer`).

Conventions of the embedding:
* Go `error` values become the inductive `GoError`; a `nil` error is `none`
  in an `Option GoError`.  Equality of Go error values is modelled by
  structural equality (exact for the sentinel errors `fs.ErrNotExist`,
  `fs.ErrPermission`, `fs.ErrInvalid`, `io.EOF`, which are the ones the
  code compares).
* `fs.FileMode` is a `Nat` holding the same bits as Go `uint32` file modes.
* File contents are `List Nat` (byte sequences); Go strings used as link
  targets are byte sequences as well, so string equality in Go coincides
  with `List Nat` equality here.
* A Go `fs.File` handle is the structure `Handle`; its read behaviour is
  the small step system `ReadBeh` (`readStep`), so stateful `Read` calls
  become explicit state passing.  The `scripted` constructor stands for an
  arbitrary `fs.File` implementation whose successive `Read` calls return
  a fixed sequence of results.
* The comparator works against the abstract `fs.FS` capability surface,
  embedded as `FSModel` (the four operations `fs.ReadDir`, `fs.Stat`,
  `Open` and `fslink.ReadLink` that the comparator uses).
* Unbounded Go loops/recursion take an explicit fuel argument; exhausting
  the fuel yields the distinguished result `CompResult.outOfFuel`.
  Calling a method on a nil Go interface yields `CompResult.panicked`.
* Error message strings are kept, but values formatted into them by
  `fmt.Errorf` verbs are elided (they never influence control flow).
-/

/-- Go errors, as compared and unwrapped by the code under test.
`pathError` is `*fs.PathError` (op, path, wrapped err); `errorf` is a
`fmt.Errorf` error without a `%w` verb (wraps nothing); `wrapf` is a
`fmt.Errorf` error with `%w` (unwraps to its cause). -/
inductive GoError where
  | notExist : GoError
  | permission : GoError
  | invalid : GoError
  | eof : GoError
  | pathError (op : String) (path : String) (err : GoError) : GoError
  | errorf (msg : String) : GoError
  | wrapf (msg : String) (cause : GoError) : GoError
deriving DecidableEq, Repr

/-- `errors.Unwrap`: `*fs.PathError` exposes its `Err` field, a `%w`
`fmt.Errorf` exposes its cause, everything else unwraps to nothing. -/
def errUnwrap : GoError → Option GoError
  | .pathError _ _ e => some e
  | .wrapf _ c => some c
  | _ => none

/-- The `unwrap` helper of fstest.go: repeatedly `errors.Unwrap` until no
further cause is exposed, returning the root cause. -/
def unwrap : GoError → GoError
  | .pathError _ _ e => unwrap e
  | .wrapf _ c => unwrap c
  | e => e

/-- `errors.Is` for the error shapes in scope: walk the chain of the first
argument, comparing each element against the target (none of the modelled
errors define an `Is` method). -/
def errorsIs (e t : GoError) : Bool :=
  e == t ||
    match e with
    | .pathError _ _ c => errorsIs c t
    | .wrapf _ c => errorsIs c t
    | _ => false

/-- `errors.Is` lifted to possibly-nil errors: Go `errors.Is(err, nil)`
is `err == nil`. -/
def errorsIsOpt : Option GoError → Option GoError → Bool
  | none, none => true
  | none, some _ => false
  | some _, none => false
  | some e, some t => errorsIs e t

/-- `unwrap` lifted to possibly-nil errors (Go `unwrap(nil) == nil`,
since `errors.Unwrap(nil)` returns nil). -/
def unwrapOpt : Option GoError → Option GoError
  | none => none
  | some e => some (unwrap e)

/-- `fs.ModeDir` (1 shifted left 31). -/
def ModeDir : Nat := 2147483648

/-- `fs.ModeSymlink` (1 shifted left 27). -/
def ModeSymlink : Nat := 134217728

/-- `fs.ModeNamedPipe` (1 shifted left 25). -/
def ModeNamedPipe : Nat := 33554432

/-- `fs.ModeSocket` (1 shifted left 24). -/
def ModeSocket : Nat := 16777216

/-- `fs.ModeDevice` (1 shifted left 26). -/
def ModeDevice : Nat := 67108864

/-- `fs.ModeCharDevice` (1 shifted left 21). -/
def ModeCharDevice : Nat := 2097152

/-- `fs.ModeIrregular` (1 shifted left 19). -/
def ModeIrregular : Nat := 524288

/-- `fs.ModeType`: the file type bits. -/
def ModeType : Nat :=
  ModeDir ||| ModeSymlink ||| ModeNamedPipe ||| ModeSocket |||
    ModeDevice ||| ModeCharDevice ||| ModeIrregular

/-- `FileMode.Type()`: mask the type bits. -/
def modeType (m : Nat) : Nat := m &&& ModeType

/-- `FileMode.Perm()`: mask the permission bits (0o777). -/
def modePerm (m : Nat) : Nat := m &&& 511

/-- `FileMode.IsDir()`: the directory bit is set. -/
def modeIsDir (m : Nat) : Bool := m &&& ModeDir != 0

/-- An `fs.FileInfo` as observed by the comparator; `accessTime` and
`changeTime` are the values the `fsinfo` package extracts (zero when the
filesystem does not support them, as for `MapFS`).  Times are naturals,
`0` standing for the zero `time.Time`. -/
structure FileInfo where
  mode : Nat
  size : Nat
  modTime : Nat
  accessTime : Nat
  changeTime : Nat
deriving DecidableEq, Repr

/-- An `fs.DirEntry`: name and type bits (`DirEntry.Type()`). -/
structure DirEntry where
  name : String
  typ : Nat
deriving DecidableEq, Repr

/-- The read behaviour of an open file handle.
`mapData` is the standard library `openMapFile`: each `Read(buf)` returns
`min (len buf) remaining` bytes, then `(0, io.EOF)` forever.
`denyRead` is the overridden `Read` of `denyReadPermission`: always
`(0, fs.ErrPermission)`.
`dirRead` is `Read` on a directory handle (`(0, fs.ErrInvalid)`).
`scripted` is an arbitrary `fs.File` whose successive reads return the
listed results, then `(0, io.EOF)` forever. -/
inductive ReadBeh where
  | mapData (data : List Nat) : ReadBeh
  | denyRead : ReadBeh
  | dirRead : ReadBeh
  | scripted (results : List (List Nat × Option GoError)) : ReadBeh
deriving DecidableEq, Repr

/-- One `Read(buf)` call with `len(buf) = n`: the bytes read, the error,
and the handle state afterwards. -/
def readStep : ReadBeh → Nat → (List Nat × Option GoError) × ReadBeh
  | .mapData [], _ => (([], some .eof), .mapData [])
  | .mapData (d :: ds), n => (((d :: ds).take n, none), .mapData ((d :: ds).drop n))
  | .denyRead, _ => (([], some .permission), .denyRead)
  | .dirRead, _ => (([], some .invalid), .dirRead)
  | .scripted [], _ => (([], some .eof), .scripted [])
  | .scripted (r :: rs), _ => (r, .scripted rs)

deriving instance DecidableEq for Except

/-- An open file/directory handle (`fs.File`, possibly `fs.ReadDirFile`):
its read behaviour, the result of a directory-listing call, the result of
`Stat`, and the result of `Close`. -/
structure Handle where
  readBeh : ReadBeh
  readDirRes : Except GoError (List DirEntry)
  statRes : Except GoError FileInfo
  closeRes : Option GoError
deriving DecidableEq, Repr

/-- `denyReadPermission`: wraps a handle, overriding `Read` to return
`(0, fs.ErrPermission)` and `ReadDir` to return `(nil, fs.ErrPermission)`;
the embedded `fs.File` promotes every other method (`Stat`, `Close`)
unchanged. -/
def denyReadPermission (f : Handle) : Handle :=
  { f with readBeh := .denyRead, readDirRes := .error .permission }

/-- `virtualDirectory` / `virtualDirInfo`: wraps a directory handle so
that `Stat` reports `fs.ModeDir | 0700` as the mode, every other field and
method delegating to the wrapped handle. -/
def virtualDirectory (f : Handle) : Handle :=
  { f with statRes := f.statRes.map fun st => { st with mode := ModeDir ||| 448 } }

/-- `fstest.MapFile`: one declared entry (mode bits, content/link-target
bytes, modification time). -/
structure MapFile where
  mode : Nat
  data : List Nat
  modTime : Nat
deriving DecidableEq, Repr

/-- `MapFS`: the mapping from slash-separated path to `MapFile`,
modelled as an association list with the map's (unique) keys. -/
def MapFS : Type := List (String × MapFile)

/-- Go map indexing `fsys[name]` (nil when absent). -/
def lookupFS (fsys : MapFS) (name : String) : Option MapFile :=
  match fsys with
  | [] => none
  | (k, v) :: rest => if k = name then some v else lookupFS rest name

/-- Split a character list at every slash (helper for `fs.ValidPath`). -/
def splitSeg : List Char → List (List Char)
  | [] => [[]]
  | c :: rest =>
    if c = '/' then [] :: splitSeg rest
    else
      match splitSeg rest with
      | [] => [[c]]
      | s :: ss => (c :: s) :: ss

/-- One path element is valid when nonempty and neither "." nor "..". -/
def validSeg (s : List Char) : Bool :=
  !(s.isEmpty || s = ['.'] || s = ['.', '.'])

/-- `fs.ValidPath`: "." names the root; otherwise every slash-separated
element must be a valid element (Lean strings are always valid UTF-8). -/
def ValidPath (name : String) : Bool :=
  name = "." || (splitSeg name.data).all validSeg

/-- `List.isPrefixOf` written out (helper). -/
def listStartsWith : List Char → List Char → Bool
  | [], _ => true
  | _ :: _, [] => false
  | a :: as, b :: bs => a == b && listStartsWith as bs

/-- Whether `p` is a prefix of the string `s`. -/
def strStartsWith (p s : String) : Bool := listStartsWith p.data s.data

/-- Characters of `s` after the prefix `p` (helper). -/
def strDropLen (n : Nat) (s : String) : List Char := s.data.drop n

/-- Characters before the first slash (helper for the standard library
directory synthesis). -/
def firstSeg : List Char → List Char
  | [] => []
  | c :: rest => if c = '/' then [] else c :: firstSeg rest

/-- Whether a character list contains a slash (helper). -/
def hasSlash (cs : List Char) : Bool := cs.any (· == '/')

/-- Whether some map key lies strictly below `name` (a key starting with
`name + "/"`); such keys make `name` an implied directory. -/
def hasPrefixChild (fsys : MapFS) (name : String) : Bool :=
  fsys.any fun kv => strStartsWith (name ++ "/") kv.1

/-- The metadata the standard library synthesizes for a directory that has
no explicit `MapFile` (`&MapFile{Mode: fs.ModeDir | 0555}`). -/
def synthDirFile : MapFile := { mode := ModeDir ||| 365, data := [], modTime := 0 }

/-- `mapFileInfo` of the standard library: the `fs.FileInfo` backed by a
`MapFile` (size is the length of the data; `MapFS` supports no access or
change times, so `fsinfo` extracts zero for them). -/
def mapFileInfo (file : MapFile) : FileInfo :=
  { mode := file.mode, size := file.data.length, modTime := file.modTime,
    accessTime := 0, changeTime := 0 }

/-- Modelled from testing/fstest `MapFS.Open`: the children of directory
`name` that are declared directly (a key equal to `name + "/"` plus a
slash-free element; for the root, a slash-free key other than "."). -/
def stdExplicitChildren (fsys : MapFS) (name : String) : List (String × MapFile) :=
  if name = "." then
    fsys.filterMap fun kv =>
      if kv.1 ≠ "." ∧ ¬ hasSlash kv.1.data then some (kv.1, kv.2) else none
  else
    fsys.filterMap fun kv =>
      if strStartsWith (name ++ "/") kv.1 then
        let rest := strDropLen (name.length + 1) kv.1
        if ¬ hasSlash rest then some (String.mk rest, kv.2) else none
      else none

/-- Modelled from testing/fstest `MapFS.Open`: names of subdirectories of
`name` needed because a deeper key passes through them. -/
def stdNeedDirs (fsys : MapFS) (name : String) : List String :=
  if name = "." then
    fsys.filterMap fun kv =>
      if hasSlash kv.1.data then some (String.mk (firstSeg kv.1.data)) else none
  else
    fsys.filterMap fun kv =>
      if strStartsWith (name ++ "/") kv.1 then
        let rest := strDropLen (name.length + 1) kv.1
        if hasSlash rest then some (String.mk (firstSeg rest)) else none
      else none

/-- Set-like deduplication (Go `need` is a map keyed by name). -/
def dedupStr : List String → List String
  | [] => []
  | x :: xs =>
    let r := dedupStr xs
    if r.contains x then r else x :: r

/-- Lexicographic order on character lists (Go string `<`; UTF-8 byte
order and code-point order agree). -/
def lexLt : List Char → List Char → Bool
  | [], [] => false
  | [], _ :: _ => true
  | _ :: _, [] => false
  | a :: as, b :: bs => a.toNat < b.toNat || (a.toNat = b.toNat && lexLt as bs)

/-- Go string `<` (helper). -/
def strLt (a b : String) : Bool := lexLt a.data b.data

/-- Insertion into a name-sorted entry list (helper for the standard
library's `sort.Slice` on the listing). -/
def insertByName (e : String × MapFile) : List (String × MapFile) → List (String × MapFile)
  | [] => [e]
  | x :: xs => if strLt e.1 x.1 || e.1 = x.1 then e :: x :: xs else x :: insertByName e xs

/-- Sort an entry list by name (the listing order contract). -/
def sortByName : List (String × MapFile) → List (String × MapFile)
  | [] => []
  | x :: xs => insertByName x (sortByName xs)

/-- Modelled from testing/fstest `MapFS.Open`: the sorted listing of
directory `name` (declared children plus synthesized subdirectories). -/
def stdDirEntries (fsys : MapFS) (name : String) : List DirEntry :=
  let explicit := stdExplicitChildren fsys name
  let need := (dedupStr (stdNeedDirs fsys name)).filter fun n => ¬ explicit.any (·.1 = n)
  (sortByName (explicit ++ need.map fun n => (n, synthDirFile))).map fun kv =>
    { name := kv.1, typ := kv.2.mode &&& ModeType }

/-- Modelled from testing/fstest `MapFS.Open`: invalid paths fail with
not-exist; a declared non-directory entry opens as an ordinary file; a
directory (declared, or implied by deeper keys, the root always) opens as
a directory handle whose metadata is the declared record or, when none
exists, the synthesized `fs.ModeDir | 0555` record; anything else fails
with not-exist. -/
def stdMapOpen (fsys : MapFS) (name : String) : Except GoError Handle :=
  if ¬ ValidPath name then .error (.pathError "open" name .notExist)
  else
    match lookupFS fsys name with
    | some file =>
      if file.mode &&& ModeDir = 0 then
        .ok { readBeh := .mapData file.data,
              readDirRes := .error (.pathError "readdirent" name .invalid),
              statRes := .ok (mapFileInfo file), closeRes := none }
      else
        .ok { readBeh := .dirRead, readDirRes := .ok (stdDirEntries fsys name),
              statRes := .ok (mapFileInfo file), closeRes := none }
    | none =>
      if name = "." ∨ hasPrefixChild fsys name then
        .ok { readBeh := .dirRead, readDirRes := .ok (stdDirEntries fsys name),
              statRes := .ok (mapFileInfo synthDirFile), closeRes := none }
      else .error (.pathError "open" name .notExist)

/-- fstest.go `MapFS.Open` (lines 34-51): open through the standard
library, stat the handle; a directory with no declared record becomes a
`virtualDirectory`; an entry whose permission bits lack owner read (0400)
becomes a `denyReadPermission` handle; otherwise the handle is returned
unchanged. -/
def MapFS.Open (fsys : MapFS) (name : String) : Except GoError Handle :=
  match stdMapOpen fsys name with
  | .error e => .error e
  | .ok f =>
    match f.statRes with
    | .error e => .error e
    | .ok s =>
      if modeIsDir s.mode ∧ lookupFS fsys name = none then .ok (virtualDirectory f)
      else if modePerm s.mode &&& 256 = 0 then .ok (denyReadPermission f)
      else .ok f

/-- fstest.go `MapFS.Stat` (lines 61-63): delegates to the standard
library `Stat`, which opens the (unwrapped) handle and stats it. -/
def MapFS.Stat (fsys : MapFS) (name : String) : Except GoError FileInfo :=
  match stdMapOpen fsys name with
  | .error e => .error e
  | .ok f => f.statRes

/-- fstest.go `MapFS.ReadDir` (lines 53-55): delegates to the standard
library `ReadDir` (open the directory, return its sorted entries). -/
def MapFS.ReadDir (fsys : MapFS) (name : String) : Except GoError (List DirEntry) :=
  match stdMapOpen fsys name with
  | .error e => .error e
  | .ok f => f.readDirRes

/-- fstest.go `MapFS.ReadLink` (lines 73-85): not-exist on an invalid or
absent path, invalid on a non-symlink entry, otherwise the stored target
(`string(file.Data)`; Go string equality is byte equality, so the target
is kept as its bytes). -/
def MapFS.ReadLink (fsys : MapFS) (name : String) : Except GoError (List Nat) :=
  if ¬ ValidPath name then .error (.pathError "readlink" name .notExist)
  else
    match lookupFS fsys name with
    | none => .error (.pathError "readlink" name .notExist)
    | some file =>
      if file.mode &&& ModeSymlink = 0 then .error (.pathError "readlink" name .invalid)
      else .ok file.data

/-- Outcome of a comparator call: success (`nil`), a returned error, a Go
runtime panic (calling a method on a nil interface), or fuel exhaustion
(the Go code would still be running). -/
inductive CompResult where
  | ok : CompResult
  | err (e : GoError) : CompResult
  | panicked : CompResult
  | outOfFuel : CompResult
deriving DecidableEq, Repr

/-- The abstract `fs.FS` capability surface the comparator is written
against: `fs.ReadDir`, `fs.Stat`, `Open` and `fslink.ReadLink` by path. -/
structure FSModel where
  readDirFn : String → Except GoError (List DirEntry)
  statFn : String → Except GoError FileInfo
  openFn : String → Except GoError Handle
  readLinkFn : String → Except GoError (List Nat)

/-- `equalErrorf(name, msg)` for a plain formatted message:
`&fs.PathError{Op: "equal", Path: name, Err: fmt.Errorf(msg, ...)}`. -/
def equalErrorf (name msg : String) : GoError :=
  .pathError "equal" name (.errorf msg)

/-- `equalErrorf(name, "%w", err)`: the same path error, wrapping `err`. -/
def equalErrorfWrap (name : String) (e : GoError) : GoError :=
  .pathError "equal" name (.wrapf "%w" e)

/-- `equalFSMinSize` (fstest.go line 130). -/
def equalFSMinSize : Nat := 1024

/-- `equalFSBufSize` (fstest.go line 131). -/
def equalFSBufSize : Nat := 32768

/-- The length of the buffer `EqualFSBuffer` actually uses (lines
140-142): the caller's buffer when it is at least `equalFSMinSize` bytes,
the internally allocated `equalFSBufSize`-byte buffer otherwise. -/
def equalFSBufLen (n : Nat) : Nat :=
  if n < equalFSMinSize then equalFSBufSize else n

/-- `buf[:len(buf)/2]`: length of the first buffer half (line 239). -/
def bufHalf1 (n : Nat) : Nat := n / 2

/-- `buf[len(buf)/2:]`: length of the second buffer half (line 240). -/
def bufHalf2 (n : Nat) : Nat := n - n / 2

/-- `equalTime` (fstest.go lines 313-320): compare two timestamps only
when both are non-zero. -/
def equalTime (typ : String) (source target : Nat) : Option GoError :=
  if source ≠ 0 ∧ target ≠ 0 ∧ source ≠ target then
    some (.errorf ("file " ++ typ ++ " times mismatch"))
  else none

/-- `equalStat` (fstest.go lines 262-311): stat both sides, compare type
bits exactly, permission bits only when both non-zero, the three
timestamps via `equalTime`, and size only for non-directories.  `none`
is success. -/
def equalStat (source target : FSModel) (name : String) : Option GoError :=
  match source.statFn name with
  | .error e => some e
  | .ok sourceInfo =>
    match target.statFn name with
    | .error e => some e
    | .ok targetInfo =>
      if modeType sourceInfo.mode ≠ modeType targetInfo.mode then
        some (.errorf "file types mismatch")
      else if modePerm sourceInfo.mode ≠ 0 ∧ modePerm targetInfo.mode ≠ 0 ∧
          modePerm sourceInfo.mode ≠ modePerm targetInfo.mode then
        some (.errorf "file modes mismatch")
      else
        match equalTime "modification" sourceInfo.modTime targetInfo.modTime with
        | some e => some e
        | none =>
          match equalTime "access" sourceInfo.accessTime targetInfo.accessTime with
          | some e => some e
          | none =>
            match equalTime "change" sourceInfo.changeTime targetInfo.changeTime with
            | some e => some e
            | none =>
              if ¬ modeIsDir sourceInfo.mode ∧ sourceInfo.size ≠ targetInfo.size then
                some (.errorf "files sizes mismatch")
              else none

/-- `equalData` (fstest.go lines 238-260): split the buffer into its two
halves and read both files in lockstep; fail on a size difference, a
content difference, or a difference between the two read errors (compared
directly with `!=`); stop successfully once both reads return the same
non-nil error.  A nil file (the Go interface value after a failed `Open`)
panics on its first `Read`. -/
def equalData (fuel : Nat) (source target : Option ReadBeh) (bufLen : Nat) : CompResult :=
  match fuel with
  | 0 => .outOfFuel
  | fuel + 1 =>
    match source, target with
    | none, _ => .panicked
    | some _, none => .panicked
    | some s, some t =>
      let ((b1, err1), s) := readStep s (bufHalf1 bufLen)
      let ((b2, err2), t) := readStep t (bufHalf2 bufLen)
      if b1.length ≠ b2.length then .err (.errorf "file read size mismatch")
      else if b1 ≠ b2 then .err (.errorf "file content mismatch")
      else if err1 ≠ err2 then .err (.errorf "file read error mismatch")
      else if err1.isSome then .ok
      else equalData fuel (some s) (some t) bufLen

/-- `equalFile` (fstest.go lines 208-229): compare metadata, open both
sides; when either open fails, the two open errors must satisfy
`errors.Is(err1, unwrap(err2))`, else an open-error mismatch is returned;
then `equalData` runs on the two handles (which are nil when the opens
failed). -/
def equalFile (fuel : Nat) (source target : FSModel) (name : String) (bufLen : Nat) :
    CompResult :=
  match equalStat source target name with
  | some e => .err (equalErrorfWrap name e)
  | none =>
    let r1 := source.openFn name
    let r2 := target.openFn name
    let err1 : Option GoError := match r1 with | .error e => some e | .ok _ => none
    let err2 : Option GoError := match r2 with | .error e => some e | .ok _ => none
    let f1 : Option ReadBeh := match r1 with | .ok f => some f.readBeh | .error _ => none
    let f2 : Option ReadBeh := match r2 with | .ok f => some f.readBeh | .error _ => none
    if (err1.isSome || err2.isSome) && ¬ errorsIsOpt err1 (unwrapOpt err2) then
      .err (equalErrorf name "file open error mismatch")
    else
      match equalData fuel f1 f2 bufLen with
      | .ok => .ok
      | .err e => .err (equalErrorfWrap name e)
      | r => r

/-- `equalSymlink` (fstest.go lines 146-159): read both link targets and
require them to be textually equal. -/
def equalSymlink (source target : FSModel) (name : String) : CompResult :=
  match source.readLinkFn name with
  | .error e => .err e
  | .ok sourceLink =>
    match target.readLinkFn name with
    | .error e => .err e
    | .ok targetLink =>
      if sourceLink ≠ targetLink then .err (equalErrorf name "symbolic links mimatch")
      else .ok

/-- `equalNode` (fstest.go lines 231-236): metadata comparison only. -/
def equalNode (source target : FSModel) (name : String) : CompResult :=
  match equalStat source target name with
  | some e => .err (equalErrorfWrap name e)
  | none => .ok

/-- `path.Join(name, entry)` for the valid paths in scope. -/
def joinPath (name entry : String) : String :=
  if name = "." then entry else name ++ "/" ++ entry

/-- The entry loop of `equalDir` (fstest.go lines 173-204): names and
declared types must match pairwise; then dispatch on the source type
(symlink, directory via `onDir`, regular file via `onFile`, other node),
stopping at the first failure. -/
def equalEntries (onDir onFile : String → CompResult) (source target : FSModel)
    (name : String) : List (DirEntry × DirEntry) → CompResult
  | [] => .ok
  | (sourceEntry, targetEntry) :: rest =>
    if sourceEntry.name ≠ targetEntry.name then
      .err (equalErrorf name "name of directory entry mismatch")
    else if sourceEntry.typ ≠ targetEntry.typ then
      .err (equalErrorf name "type of directory entry mismatch")
    else
      let filePath := joinPath name sourceEntry.name
      let res :=
        if sourceEntry.typ = ModeSymlink then equalSymlink source target filePath
        else if sourceEntry.typ = ModeDir then onDir filePath
        else if sourceEntry.typ = 0 then onFile filePath
        else equalNode source target filePath
      match res with
      | .ok => equalEntries onDir onFile source target name rest
      | r => r

/-- `equalDir` (fstest.go lines 161-206): list both sides, fail on an
entry-count mismatch, then walk the entry pairs in order, recursing into
subdirectories (each level of recursion consumes one unit of fuel). -/
def equalDir : Nat → FSModel → FSModel → String → Nat → CompResult
  | 0, _, _, _, _ => .outOfFuel
  | fuel + 1, source, target, name, bufLen =>
    match source.readDirFn name with
    | .error e => .err e
    | .ok sourceEntries =>
      match target.readDirFn name with
      | .error e => .err e
      | .ok targetEntries =>
        if sourceEntries.length ≠ targetEntries.length then
          .err (equalErrorf name "number of directory entries mismatch")
        else
          equalEntries (fun p => equalDir fuel source target p bufLen)
            (fun p => equalFile fuel source target p bufLen)
            source target name (sourceEntries.zip targetEntries)

/-- `EqualFSBuffer` (fstest.go lines 139-144): substitute the internal
buffer when the caller's is missing or too small, then compare the trees
rooted at ".". -/
def EqualFSBuffer (fuel : Nat) (a b : FSModel) (bufLen : Nat) : CompResult :=
  equalDir fuel a b "." (equalFSBufLen bufLen)

/-- `EqualFS` (fstest.go line 135): `EqualFSBuffer` with no buffer. -/
def EqualFS (fuel : Nat) (a b : FSModel) : CompResult :=
  EqualFSBuffer fuel a b 0

/-- A `MapFS` viewed through the capability surface the comparator uses
(`MapFS` implements `fs.ReadDirFS`, `fs.StatFS`, `fs.FS` and
`fslink.ReadLinkFS`, so `fs.ReadDir`, `fs.Stat`, `Open` and
`fslink.ReadLink` all dispatch to its methods). -/
def MapFS.toFSModel (m : MapFS) : FSModel :=
  { readDirFn := MapFS.ReadDir m, statFn := MapFS.Stat m,
    openFn := MapFS.Open m, readLinkFn := MapFS.ReadLink m }

/-- C4, counterexample: a caller-supplied 1025-byte buffer is at least
`equalFSMinSize` bytes, so it is kept, and its two halves have 512 and
513 bytes — the buffer actually used is not split into two equal halves. -/
theorem c4_counterexample :
    equalFSBufLen 1025 = 1025 ∧ bufHalf1 (equalFSBufLen 1025) = 512 ∧
      bufHalf2 (equalFSBufLen 1025) = 513 ∧
      bufHalf1 (equalFSBufLen 1025) ≠ bufHalf2 (equalFSBufLen 1025) := by
  decide

/-- C4, amended: a missing or short (under 1024 bytes) buffer is replaced
by the internally allocated 32768-byte buffer rather than failing, and the
comparison proceeds on the substituted buffer; the buffer actually used is
split into a first half of n/2 bytes and a second half of the remaining
bytes, which are equal exactly when its length is even (as it always is
for the substituted internal buffer). -/
theorem c4_buffer_substitution (n : Nat) :
    (n < equalFSMinSize → equalFSBufLen n = equalFSBufSize) ∧
    (equalFSMinSize ≤ n → equalFSBufLen n = n) ∧
    bufHalf1 (equalFSBufLen n) + bufHalf2 (equalFSBufLen n) = equalFSBufLen n ∧
    (equalFSBufLen n % 2 = 0 → bufHalf1 (equalFSBufLen n) = bufHalf2 (equalFSBufLen n)) ∧
    (∀ fuel a b, EqualFSBuffer fuel a b n = equalDir fuel a b "." (equalFSBufLen n)) := by
  refine ⟨fun h => ?_, fun h => ?_, ?_, fun h => ?_, fun _ _ _ => rfl⟩
  · simp only [equalFSBufLen, if_pos h]
  · simp only [equalFSBufLen, equalFSMinSize] at *
    rw [if_neg (by omega)]
  · unfold bufHalf1 bufHalf2
    omega
  · unfold bufHalf1 bufHalf2
    omega

/-- C4, witness: the omitted (length 0) buffer is substituted by the
32768-byte buffer, whose halves are equal. -/
theorem c4_witness :
    equalFSBufLen 0 = equalFSBufSize ∧
      bufHalf1 (equalFSBufLen 0) = bufHalf2 (equalFSBufLen 0) :=
  ⟨(c4_buffer_substitution 0).1 (by decide),
   (c4_buffer_substitution 0).2.2.2.1 (by decide)⟩

/-- C7: when the two listings of a directory have different lengths,
`equalDir` returns the entry-count mismatch error naming that directory
(an `equal` path error at `name`), whatever the entries contain and
however little fuel remains for recursion — no entry is visited. -/
theorem c7_count_mismatch (fuel : Nat) (source target : FSModel) (name : String)
    (bufLen : Nat) (es ts : List DirEntry)
    (hs : source.readDirFn name = .ok es) (ht : target.readDirFn name = .ok ts)
    (hne : es.length ≠ ts.length) :
    equalDir (fuel + 1) source target name bufLen =
      .err (equalErrorf name "number of directory entries mismatch") := by
  simp [equalDir, hs, ht, hne]

/-- A filesystem with a single listed regular entry (all other
operations fail), used as a comparison counterpart below. -/
def fsOneEntry : FSModel :=
  { readDirFn := fun n => if n = "." then .ok [{ name := "a", typ := 0 }] else
      .error (.pathError "open" n .notExist)
    statFn := fun n => .error (.pathError "stat" n .notExist)
    openFn := fun n => .error (.pathError "open" n .notExist)
    readLinkFn := fun n => .error (.pathError "readlink" n .notExist) }

/-- A filesystem whose root lists no entries (all other operations
fail), used as a comparison counterpart below. -/
def fsNoEntry : FSModel :=
  { readDirFn := fun n => if n = "." then .ok [] else
      .error (.pathError "open" n .notExist)
    statFn := fun n => .error (.pathError "stat" n .notExist)
    openFn := fun n => .error (.pathError "open" n .notExist)
    readLinkFn := fun n => .error (.pathError "readlink" n .notExist) }

/-- C7, witness: a one-entry root against an empty root fails with the
count mismatch at ".". -/
theorem c7_witness :
    equalDir 1 fsOneEntry fsNoEntry "." 32768 =
      .err (equalErrorf "." "number of directory entries mismatch") :=
  c7_count_mismatch 0 fsOneEntry fsNoEntry "." 32768 [{ name := "a", typ := 0 }] []
    rfl rfl (by decide)

/-- C8: `ReadLink` returns the stored target when the declared mode has
the symlink bit; it fails with an invalid path error when the path is in
the mapping but not a symlink, and with a not-exist path error when the
path is structurally invalid or absent from the mapping. -/
theorem c8_readlink (fsys : MapFS) (name : String) :
    (∀ file, ValidPath name = true → lookupFS fsys name = some file →
      file.mode &&& ModeSymlink ≠ 0 → MapFS.ReadLink fsys name = .ok file.data) ∧
    (∀ file, ValidPath name = true → lookupFS fsys name = some file →
      file.mode &&& ModeSymlink = 0 →
      MapFS.ReadLink fsys name = .error (.pathError "readlink" name .invalid)) ∧
    (ValidPath name = false ∨ lookupFS fsys name = none →
      MapFS.ReadLink fsys name = .error (.pathError "readlink" name .notExist)) := by
  refine ⟨?_, ?_, ?_⟩
  · intro file hv hl hsym
    simp [MapFS.ReadLink, hv, hl, hsym]
  · intro file hv hl hsym
    simp [MapFS.ReadLink, hv, hl, hsym]
  · rintro (hv | hl)
    · simp [MapFS.ReadLink, hv]
    · by_cases hv : ValidPath name <;> simp [MapFS.ReadLink, hv, hl]

/-- `equalTime` succeeds exactly when either timestamp is zero (treated
as unsupported) or the two are equal. -/
theorem equalTime_none_iff (typ : String) (s t : Nat) :
    equalTime typ s t = none ↔ (s = 0 ∨ t = 0 ∨ s = t) := by
  unfold equalTime
  split_ifs with h <;> simp <;> tauto

/-- C5: when both stats succeed, the metadata check passes exactly when
the type bits match, the permission bits match or one side reports zero
permission, each of the modification, access and change timestamps match
or one side reports a zero timestamp, and the sizes match unless the
entry is a directory. -/
theorem c5_equalStat_characterization (source target : FSModel) (name : String)
    (si ti : FileInfo) (hs : source.statFn name = .ok si)
    (ht : target.statFn name = .ok ti) :
    equalStat source target name = none ↔
      (modeType si.mode = modeType ti.mode ∧
       (modePerm si.mode = 0 ∨ modePerm ti.mode = 0 ∨ modePerm si.mode = modePerm ti.mode) ∧
       (si.modTime = 0 ∨ ti.modTime = 0 ∨ si.modTime = ti.modTime) ∧
       (si.accessTime = 0 ∨ ti.accessTime = 0 ∨ si.accessTime = ti.accessTime) ∧
       (si.changeTime = 0 ∨ ti.changeTime = 0 ∨ si.changeTime = ti.changeTime) ∧
       (modeIsDir si.mode = true ∨ si.size = ti.size)) := by
  have h3 := equalTime_none_iff "modification" si.modTime ti.modTime
  have h4 := equalTime_none_iff "access" si.accessTime ti.accessTime
  have h5 := equalTime_none_iff "change" si.changeTime ti.changeTime
  simp only [equalStat, hs, ht]
  rcases e3 : equalTime "modification" si.modTime ti.modTime with _ | v3 <;>
    rcases e4 : equalTime "access" si.accessTime ti.accessTime with _ | v4 <;>
      rcases e5 : equalTime "change" si.changeTime ti.changeTime with _ | v5 <;>
        rw [e3] at h3 <;> rw [e4] at h4 <;> rw [e5] at h5 <;>
          simp only [reduceCtorEq, false_iff, true_iff, iff_true, iff_false] at h3 h4 h5 ⊢ <;>
            cases hb : modeIsDir si.mode <;> split_ifs with h1 h2 <;> simp_all <;> tauto

/-- A filesystem whose stats report mode 0644, size 5, modification time
7 and no access/change times (comparison counterpart below). -/
def fsStatSource : FSModel :=
  { readDirFn := fun _ => .ok []
    statFn := fun _ => .ok { mode := 420, size := 5, modTime := 7, accessTime := 0, changeTime := 0 }
    openFn := fun n => .error (.pathError "open" n .notExist)
    readLinkFn := fun n => .error (.pathError "readlink" n .notExist) }

/-- A filesystem whose stats report mode 0644, size 5, no modification
or change time and access time 3 (comparison counterpart above). -/
def fsStatTarget : FSModel :=
  { readDirFn := fun _ => .ok []
    statFn := fun _ => .ok { mode := 420, size := 5, modTime := 0, accessTime := 3, changeTime := 0 }
    openFn := fun n => .error (.pathError "open" n .notExist)
    readLinkFn := fun n => .error (.pathError "readlink" n .notExist) }

/-- C5, witness: differing modification and access timestamps are both
skipped because the other side reports zero, so the check passes. -/
theorem c5_witness : equalStat fsStatSource fsStatTarget "f" = none :=
  (c5_equalStat_characterization fsStatSource fsStatTarget "f"
      { mode := 420, size := 5, modTime := 7, accessTime := 0, changeTime := 0 }
      { mode := 420, size := 5, modTime := 0, accessTime := 3, changeTime := 0 }
      rfl rfl).mpr (by decide)

/-- C6: opening a declared entry whose permission bits lack owner read
(0400) succeeds with a handle whose every read call returns the
permission-denied error (leaving the handle in the same denying state)
and whose directory-listing call fails with permission denied. -/
theorem c6_deny_read_open (fsys : MapFS) (name : String) (file : MapFile)
    (hv : ValidPath name = true) (hl : lookupFS fsys name = some file)
    (hperm : modePerm file.mode &&& 256 = 0) :
    ∃ h, MapFS.Open fsys name = .ok h ∧ h.readBeh = .denyRead ∧
      h.readDirRes = .error .permission ∧
      ∀ n, readStep h.readBeh n = (([], some .permission), h.readBeh) := by
  by_cases hd : file.mode &&& ModeDir = 0
  · refine ⟨denyReadPermission ⟨.mapData file.data,
      .error (.pathError "readdirent" name .invalid), .ok (mapFileInfo file), none⟩,
      ?_, rfl, rfl, fun n => rfl⟩
    simp [MapFS.Open, stdMapOpen, hv, hl, hd, hperm, mapFileInfo, modeIsDir]
  · refine ⟨denyReadPermission ⟨.dirRead, .ok (stdDirEntries fsys name),
      .ok (mapFileInfo file), none⟩, ?_, rfl, rfl, fun n => rfl⟩
    simp [MapFS.Open, stdMapOpen, hv, hl, hd, hperm, mapFileInfo, modeIsDir]

/-- A map with a single write-only (mode 0200) file. -/
def fsDeny : MapFS := [("f", { mode := 128, data := [1, 2], modTime := 0 })]

/-- C6, witness: the write-only file opens successfully and its handle
denies reads and directory listings. -/
theorem c6_witness :
    ∃ h, MapFS.Open fsDeny "f" = .ok h ∧ h.readBeh = .denyRead ∧
      h.readDirRes = .error .permission ∧
      ∀ n, readStep h.readBeh n = (([], some .permission), h.readBeh) :=
  c6_deny_read_open fsDeny "f" { mode := 128, data := [1, 2], modTime := 0 }
    (by decide) (by decide) (by decide)

/-- C10: the deny-read wrapper overrides only the read and
directory-listing operations; `Stat` and `Close` are the wrapped handle's
own, so the underlying metadata stays observable. -/
theorem c10_deny_frame (f : Handle) :
    (denyReadPermission f).statRes = f.statRes ∧
    (denyReadPermission f).closeRes = f.closeRes ∧
    (∀ n, readStep (denyReadPermission f).readBeh n =
      (([], some .permission), (denyReadPermission f).readBeh)) ∧
    (denyReadPermission f).readDirRes = .error .permission :=
  ⟨rfl, rfl, fun _ => rfl, rfl⟩

/-- A map declaring only the file "a/b", making "a" an implied directory. -/
def fsImplied : MapFS := [("a/b", { mode := 420, data := [1], modTime := 0 })]

/-- C3, counterexample: stat of the implied directory "a" (the `Stat`
method, which delegates to the standard library and bypasses the
`virtualDirectory` wrapper) reports the synthesized mode directory|0555,
not directory|0700. -/
theorem c3_counterexample :
    MapFS.Stat fsImplied "a" =
      .ok { mode := ModeDir ||| 365, size := 0, modTime := 0,
            accessTime := 0, changeTime := 0 } ∧
    (ModeDir ||| 365 : Nat) ≠ ModeDir ||| 448 := by
  decide

/-- C3, amended: for a path that is a directory only because it is a
prefix of another declared path, the handle returned by `Open` reports
directory type with owner rwx permission (mode directory|0700) from its
`Stat`, regardless of the underlying synthesized value; the filesystem's
direct `Stat` method bypasses that wrapper and reports the standard
library's synthesized mode directory|0555. -/
theorem c3_virtual_dir_mode (fsys : MapFS) (name : String)
    (hv : ValidPath name = true) (hl : lookupFS fsys name = none)
    (hc : hasPrefixChild fsys name = true) :
    (∃ h, MapFS.Open fsys name = .ok h ∧
      h.statRes = .ok { mode := ModeDir ||| 448, size := 0, modTime := 0,
                        accessTime := 0, changeTime := 0 }) ∧
    MapFS.Stat fsys name =
      .ok { mode := ModeDir ||| 365, size := 0, modTime := 0,
            accessTime := 0, changeTime := 0 } := by
  have hopen : stdMapOpen fsys name =
      .ok ⟨.dirRead, .ok (stdDirEntries fsys name), .ok (mapFileInfo synthDirFile), none⟩ := by
    simp [stdMapOpen, hv, hl, hc]
  have hdir : modeIsDir (ModeDir ||| 365) = true := by decide
  refine ⟨⟨virtualDirectory ⟨.dirRead, .ok (stdDirEntries fsys name),
    .ok (mapFileInfo synthDirFile), none⟩, ?_, rfl⟩, ?_⟩
  · simp [MapFS.Open, hopen, hl, mapFileInfo, synthDirFile, hdir]
  · simp [MapFS.Stat, hopen, mapFileInfo, synthDirFile]

/-- C3, witness: the implied directory "a" of `fsImplied`. -/
theorem c3_witness :
    (∃ h, MapFS.Open fsImplied "a" = .ok h ∧
      h.statRes = .ok { mode := ModeDir ||| 448, size := 0, modTime := 0,
                        accessTime := 0, changeTime := 0 }) ∧
    MapFS.Stat fsImplied "a" =
      .ok { mode := ModeDir ||| 365, size := 0, modTime := 0,
            accessTime := 0, changeTime := 0 } :=
  c3_virtual_dir_mode fsImplied "a" (by decide) (by decide) (by decide)

/-- A filesystem whose root lists the regular file "f", whose stat of
"f" succeeds, and whose every open fails with a not-exist path error
(so both sides' open errors share the root cause `fs.ErrNotExist`). -/
def fsOpenFails : FSModel :=
  { readDirFn := fun n => if n = "." then .ok [{ name := "f", typ := 0 }] else
      .error (.pathError "open" n .notExist)
    statFn := fun n =>
      if n = "f" then
        .ok { mode := 420, size := 1, modTime := 0, accessTime := 0, changeTime := 0 }
      else .error (.pathError "stat" n .notExist)
    openFn := fun n => .error (.pathError "open" n .notExist)
    readLinkFn := fun n => .error (.pathError "readlink" n .notExist) }

/-- C1: when both sides fail to open a regular file with equivalent
errors (`errors.Is(err1, unwrap(err2))` holds, as shown by the second
conjunct), `equalFile` does not terminate successfully: it falls through
to `equalData` on the two nil file handles, whose first `Read` call is a
nil-interface method call — a runtime panic. -/
theorem c1_open_error_panic :
    EqualFS 10 fsOpenFails fsOpenFails = .panicked ∧
    errorsIsOpt (some (.pathError "open" "f" .notExist))
      (unwrapOpt (some (.pathError "open" "f" .notExist))) = true := by
  decide

/-- A map declaring the symlink "s" with target "..". -/
def fsLink : MapFS := [("s", { mode := ModeSymlink ||| 438, data := [46, 46], modTime := 0 })]

/-- C8, witness: reading the declared symlink returns its stored target. -/
theorem c8_witness :
    MapFS.ReadLink fsLink "s" = .ok [46, 46] :=
  (c8_readlink fsLink "s").1 { mode := ModeSymlink ||| 438, data := [46, 46], modTime := 0 }
    (by decide) (by decide) (by decide)

/-- Modelled from the amended claim: the verdict of one lockstep read
pair — a size mismatch, a content mismatch, a mismatch between the two
error values (compared directly, no unwrapping), successful termination
when both return the same non-nil error, or `none` to continue reading. -/
def readPairCheck (r1 r2 : List Nat × Option GoError) : Option CompResult :=
  if r1.1.length ≠ r2.1.length then some (.err (.errorf "file read size mismatch"))
  else if r1.1 ≠ r2.1 then some (.err (.errorf "file content mismatch"))
  else if r1.2 ≠ r2.2 then some (.err (.errorf "file read error mismatch"))
  else if r1.2.isSome then some .ok
  else none

/-- Modelled from the amended claim: lockstep comparison of two read
scripts, an exhausted side reporting `(0, io.EOF)` thereafter (after both
are exhausted the next pair is two equal EOFs, ending the loop
successfully; a single exhausted side always yields a verdict, since its
EOF either differs from the other side's error or ends the loop). -/
def lockstepSpec :
    List (List Nat × Option GoError) → List (List Nat × Option GoError) → CompResult
  | [], [] => .ok
  | [], r2 :: _ => (readPairCheck ([], some .eof) r2).getD .ok
  | r1 :: _, [] => (readPairCheck r1 ([], some .eof)).getD .ok
  | r1 :: rs1, r2 :: rs2 => (readPairCheck r1 r2).getD (lockstepSpec rs1 rs2)

/-- C2, amended: for any two files (as scripts of read results) and
enough fuel, `equalData` computes exactly the lockstep comparison that
reads both sides in lockstep and fails at the first divergent call —
sizes first, then bytes, then the two error values compared directly for
equality (no unwrapping of error chains) — and ends successfully once
both sides return the same non-nil error (end-of-stream or otherwise). -/
theorem c2_lockstep (rs1 rs2 : List (List Nat × Option GoError)) (bufLen fuel : Nat)
    (hfuel : rs1.length + rs2.length < fuel) :
    equalData fuel (some (.scripted rs1)) (some (.scripted rs2)) bufLen =
      lockstepSpec rs1 rs2 := by
  induction rs1 generalizing rs2 fuel with
  | nil =>
    cases rs2 with
    | nil =>
      cases fuel with
      | zero => omega
      | succ f => simp [equalData, lockstepSpec, readStep, readPairCheck]
    | cons r2 rs2t =>
      cases fuel with
      | zero => omega
      | succ f =>
        simp only [equalData, lockstepSpec, readStep, readPairCheck]
        rcases r2 with ⟨b2, e2⟩
        split_ifs <;> simp_all
  | cons r1 rs1t ih =>
    cases rs2 with
    | nil =>
      cases fuel with
      | zero => omega
      | succ f =>
        simp only [equalData, lockstepSpec, readStep, readPairCheck]
        rcases r1 with ⟨b1, e1⟩
        split_ifs <;> simp_all
    | cons r2 rs2t =>
      cases fuel with
      | zero => omega
      | succ f =>
        have hrec := ih rs2t f (by simp at hfuel ⊢; omega)
        simp only [equalData, lockstepSpec, readStep, readPairCheck]
        rcases r1 with ⟨b1, e1⟩
        rcases r2 with ⟨b2, e2⟩
        split_ifs <;> simp_all

/-- C2, counterexample: one side's read returns a wrapped end-of-stream
error, the other a bare one; both error chains unwrap to the same root
cause (io.EOF) and the sizes and bytes agree, yet `equalData` fails with
a read-error mismatch — the errors are compared directly, not by root
cause. -/
theorem c2_counterexample :
    equalData 3 (some (.scripted [([], some (.wrapf "read failed" .eof))]))
        (some (.scripted [([], some .eof)])) 2048 =
      .err (.errorf "file read error mismatch") ∧
    unwrap (.wrapf "read failed" .eof) = unwrap .eof := by
  decide

/-- C2, witness: two identical two-read scripts compare equal, matching
the lockstep specification. -/
theorem c2_witness :
    equalData 5 (some (.scripted [([1, 2], none), ([], some .eof)]))
        (some (.scripted [([1, 2], none), ([], some .eof)])) 2048 =
      lockstepSpec [([1, 2], none), ([], some .eof)] [([1, 2], none), ([], some .eof)] ∧
    lockstepSpec [([1, 2], none), ([], some .eof)] [([1, 2], none), ([], some .eof)] = .ok :=
  ⟨c2_lockstep [([1, 2], none), ([], some .eof)] [([1, 2], none), ([], some .eof)] 2048 5
    (by decide), by decide⟩

/-- A filesystem on which every capability call the comparator can make
(list, stat, open, read-link) succeeds at every path. -/
structure TotalFS (F : FSModel) : Prop where
  readDirTotal : ∀ name, ∃ es, F.readDirFn name = .ok es
  statTotal : ∀ name, ∃ i, F.statFn name = .ok i
  openTotal : ∀ name, ∃ h, F.openFn name = .ok h
  readLinkTotal : ∀ name, ∃ l, F.readLinkFn name = .ok l

/-- Comparing identical stat results succeeds. -/
theorem equalStat_refl (F : FSModel) (name : String) (i : FileInfo)
    (hstat : F.statFn name = .ok i) : equalStat F F name = none := by
  simp [equalStat, hstat, equalTime]

/-- Reading the same handle state through both (equal, since the buffer
length is even) halves never reports a difference. -/
theorem equalData_refl (fuel : Nat) (b : ReadBeh) (bufLen : Nat)
    (heven : bufLen % 2 = 0) :
    equalData fuel (some b) (some b) bufLen = .ok ∨
      equalData fuel (some b) (some b) bufLen = .outOfFuel := by
  induction fuel generalizing b with
  | zero => right; rfl
  | succ f ih =>
    have hh : bufHalf2 bufLen = bufHalf1 bufLen := by
      unfold bufHalf1 bufHalf2
      omega
    simp only [equalData, hh]
    rcases hr : readStep b (bufHalf1 bufLen) with ⟨⟨bs, e⟩, b2⟩
    cases e with
    | none => simpa [hr] using ih b2
    | some v => simp [hr]

/-- Comparing a regular file of a filesystem with itself never reports a
difference when its stat and open succeed. -/
theorem equalFile_refl (F : FSModel) (name : String) (bufLen fuel : Nat)
    (heven : bufLen % 2 = 0) (i : FileInfo) (hstat : F.statFn name = .ok i)
    (h : Handle) (hopen : F.openFn name = .ok h) :
    equalFile fuel F F name bufLen = .ok ∨
      equalFile fuel F F name bufLen = .outOfFuel := by
  have hs := equalStat_refl F name i hstat
  simp only [equalFile, hs, hopen]
  rcases equalData_refl fuel h.readBeh bufLen heven with hd | hd <;> simp [hd]

/-- Comparing a symlink of a filesystem with itself succeeds when its
read-link succeeds. -/
theorem equalSymlink_refl (F : FSModel) (name : String) (l : List Nat)
    (hrl : F.readLinkFn name = .ok l) : equalSymlink F F name = .ok := by
  simp [equalSymlink, hrl]

/-- Zipping a list with itself pairs every element with itself. -/
theorem zip_self_pairs {α : Type} (l : List α) : l.zip l = l.map fun x => (x, x) := by
  induction l with
  | nil => rfl
  | cons x xs ih => simp [ih]

/-- The entry loop over self-paired entries never reports a difference on
a total filesystem, given that directory recursion at the current fuel
does not. -/
theorem equalEntries_refl (F : FSModel) (hF : TotalFS F) (bufLen : Nat)
    (heven : bufLen % 2 = 0) (f : Nat)
    (hdir : ∀ p, equalDir f F F p bufLen = .ok ∨ equalDir f F F p bufLen = .outOfFuel)
    (name : String) (l : List (DirEntry × DirEntry)) (hl : ∀ p ∈ l, p.1 = p.2) :
    equalEntries (fun p => equalDir f F F p bufLen) (fun p => equalFile f F F p bufLen)
        F F name l = .ok ∨
      equalEntries (fun p => equalDir f F F p bufLen) (fun p => equalFile f F F p bufLen)
        F F name l = .outOfFuel := by
  induction l with
  | nil => left; rfl
  | cons hd tl ihl =>
    obtain ⟨e1, e2⟩ := hd
    have he : e1 = e2 := hl _ (List.mem_cons_self _ _)
    subst he
    have htl : ∀ p ∈ tl, p.1 = p.2 := fun p hp => hl p (List.mem_cons_of_mem _ hp)
    simp only [equalEntries, if_neg (fun h => h rfl : ¬ e1.name ≠ e1.name),
      if_neg (fun h => h rfl : ¬ e1.typ ≠ e1.typ)]
    by_cases h1 : e1.typ = ModeSymlink
    · obtain ⟨lk, hlk⟩ := hF.readLinkTotal (joinPath name e1.name)
      rw [if_pos h1, equalSymlink_refl F _ lk hlk]
      exact ihl htl
    · by_cases h2 : e1.typ = ModeDir
      · rw [if_neg h1, if_pos h2]
        rcases hdir (joinPath name e1.name) with hd | hd
        · rw [hd]
          exact ihl htl
        · rw [hd]
          right
          rfl
      · by_cases h3 : e1.typ = 0
        · obtain ⟨i, hi⟩ := hF.statTotal (joinPath name e1.name)
          obtain ⟨hh, hho⟩ := hF.openTotal (joinPath name e1.name)
          rw [if_neg h1, if_neg h2, if_pos h3]
          rcases equalFile_refl F (joinPath name e1.name) bufLen f heven i hi hh hho with
            hd | hd
          · rw [hd]
            exact ihl htl
          · rw [hd]
            right
            rfl
        · obtain ⟨i, hi⟩ := hF.statTotal (joinPath name e1.name)
          have hn : equalNode F F (joinPath name e1.name) = .ok := by
            simp [equalNode, equalStat_refl F _ i hi]
          rw [if_neg h1, if_neg h2, if_neg h3, hn]
          exact ihl htl

/-- The directory walk of a total filesystem against itself never reports
a difference: wherever it terminates within the fuel, it succeeds. -/
theorem equalDir_refl (F : FSModel) (hF : TotalFS F) (bufLen : Nat)
    (heven : bufLen % 2 = 0) :
    ∀ fuel name, equalDir fuel F F name bufLen = .ok ∨
      equalDir fuel F F name bufLen = .outOfFuel := by
  intro fuel
  induction fuel with
  | zero =>
    intro name
    right
    rfl
  | succ f ih =>
    intro name
    obtain ⟨es, hes⟩ := hF.readDirTotal name
    have hzip : ∀ p ∈ es.zip es, (p : DirEntry × DirEntry).1 = p.2 := by
      intro p hp
      rw [zip_self_pairs] at hp
      obtain ⟨x, _, hx⟩ := List.mem_map.mp hp
      rw [← hx]
    simp only [equalDir, hes, if_neg (fun h => h rfl : ¬ es.length ≠ es.length)]
    exact equalEntries_refl F hF bufLen heven f ih name (es.zip es) hzip

/-- C9, amended: comparing a filesystem with itself never reports a
difference when every capability call succeeds — the comparison returns
nil whenever the traversal completes within the fuel (the Go code has no
fuel; an infinitely deep filesystem would simply recurse forever). -/
theorem c9_reflexive (F : FSModel) (hF : TotalFS F) (fuel : Nat) :
    EqualFS fuel F F = .ok ∨ EqualFS fuel F F = .outOfFuel := by
  unfold EqualFS EqualFSBuffer
  exact equalDir_refl F hF (equalFSBufLen 0) (by decide) fuel "."

/-- A filesystem on which every capability call fails with not-exist. -/
def fsRootErr : FSModel :=
  { readDirFn := fun n => .error (.pathError "open" n .notExist)
    statFn := fun n => .error (.pathError "stat" n .notExist)
    openFn := fun n => .error (.pathError "open" n .notExist)
    readLinkFn := fun n => .error (.pathError "readlink" n .notExist) }

/-- C9, counterexample: comparing a filesystem with itself is not nil
when listing the root fails — the listing error is returned, so `Compare`
is not reflexive over all filesystems. -/
theorem c9_counterexample :
    EqualFS 5 fsRootErr fsRootErr = .err (.pathError "open" "." .notExist) ∧
    EqualFS 5 fsRootErr fsRootErr ≠ .ok := by
  decide

/-- A total filesystem: every path stats as an empty regular file 0644,
opens to an empty readable handle, lists no entries and read-links to the
empty target. -/
def fsTrivial : FSModel :=
  { readDirFn := fun _ => .ok []
    statFn := fun _ =>
      .ok { mode := 420, size := 0, modTime := 0, accessTime := 0, changeTime := 0 }
    openFn := fun _ => .ok ⟨.mapData [], .error .invalid,
      .ok { mode := 420, size := 0, modTime := 0, accessTime := 0, changeTime := 0 }, none⟩
    readLinkFn := fun _ => .ok [] }

/-- C9, witness: the amended reflexivity applied to a concrete total
filesystem. -/
theorem c9_witness :
    EqualFS 3 fsTrivial fsTrivial = .ok ∨ EqualFS 3 fsTrivial fsTrivial = .outOfFuel :=
  c9_reflexive fsTrivial
    ⟨fun _ => ⟨_, rfl⟩, fun _ => ⟨_, rfl⟩, fun _ => ⟨_, rfl⟩, fun _ => ⟨_, rfl⟩⟩ 3
